import Mathlib

/-!
Verification of the real-time message-delivery core of the Safe-massage
repository. The definitions below are a shallow embedding of the WebSocket
route handler in `src/unnamed/part_002` (the current server router: heartbeat
monitor, connection registry, presence broadcast, message router, typing
relay), of the in-memory storage collaborator (`MemStorage`), of the message
schema (`insertMessageSchema` in `src/shared/schema.ts`), and of the client
hook `getMessageStatus` (`src/client/src/hooks/use-websocket.tsx`).

Modelling conventions:
- A `ws` (WebSocketClient) object is a `Conn`; its mutable fields
  (`userId`, `isAlive`, readyState) are carried in the `clients` list of the
  server state, which plays the role of `wss.clients`. The `ws` library
  removes closed sockets from `wss.clients`; since every iteration over
  `wss.clients` in the source filters on `readyState === OPEN`, closed
  sockets are modelled by keeping them in the list with `isOpen = false`,
  which is observationally identical.
- JS `Map`s (`connections`, `sessions`, `MemStorage.users`) are modelled as
  functions to `Option`, which is exactly a JS Map's key-to-value behaviour.
- JS truthiness of an optional numeric id (`if (ws.userId)`,
  `if (validatedMessage.receiverId)`) is modelled by `truthyN`: `0`,
  `null` and `undefined` are falsy.
- `await`ed storage calls that can reject are modelled by an explicit
  `persistOk` input to the frame handler; a rejection lands in the single
  `catch` block of the source, which sends the error envelope.
- `ws.send(...)` is modelled as appending `(target connection id, frame)` to
  an output list; send attempts on non-open sockets are recorded as the
  source records the attempt (the source only guards some sends with a
  readyState check, which the embedding mirrors exactly).
- Timestamps (`new Date()`) are a `now : Nat` parameter.
-/

namespace SafeMessage

/-- JS truthiness of an optional numeric value: `undefined`, `null` and `0`
are falsy, every other number is truthy. -/
def truthyN : Option Nat → Bool
  | some n => n != 0
  | none => false

/-- One WebSocketClient object: its identity as an object (`cid`), the
`userId` binding written by the connection handler, the heartbeat liveness
flag `isAlive`, and whether `readyState === WebSocket.OPEN` (`isOpen`). -/
structure Conn where
  cid : Nat
  boundUser : Option Nat
  isAlive : Bool
  isOpen : Bool
deriving Repr, DecidableEq

/-- Presence-relevant fields of a stored User record in `MemStorage.users`.
The remaining User columns (username, password, avatarUrl) are never read or
written by any operation modelled here. -/
structure UserRec where
  isOnline : Bool
  lastSeen : Nat
deriving Repr, DecidableEq

/-- A persisted Message record, as built by `MemStorage.createMessage`. -/
structure Msg where
  id : Nat
  content : String
  senderId : Option Nat
  receiverId : Option Nat
  imageUrl : Option String
  createdAt : Nat
deriving Repr, DecidableEq

/-- The raw inbound envelope after `JSON.parse`: the fields the handler
reads. `id` is the client-side temporary id echoed in status envelopes. -/
structure Envelope where
  etype : String
  id : Option Nat
  content : Option String
  senderId : Option Nat
  receiverId : Option Nat
  imageUrl : Option String
  isTyping : Option Bool
deriving Repr, DecidableEq

/-- An outbound frame (the JSON payloads serialized by the server). A
persisted Message record is sent as-is, without a `type` wrapper. -/
inductive Frame where
  | msgRecord (m : Msg)
  | messageStatus (messageId : Option Nat) (status : String)
  | typingF (userId : Option Nat) (isTyping : Option Bool)
  | userStatus (userId : Nat) (isOnline : Bool)
  | errorFrame (message : String)
deriving Repr, DecidableEq

/-- A send attempt: (connection id of the target socket, frame). -/
abbrev Send := Nat × Frame

/-- The server-side mutable state: `wss.clients`, the `connections` and
`sessions` maps of the route handler, and the storage collaborator's
user and message tables (`MemStorage`). -/
structure ServerState where
  clients : List Conn
  registry : Nat → Option Nat
  sessions : String → Option Nat
  users : Nat → Option UserRec
  msgs : List Msg
  nextMsgId : Nat

/-- Look a connection object up by its object identity in `wss.clients`. -/
def connOf (s : ServerState) (cid : Nat) : Option Conn :=
  s.clients.find? (fun c => c.cid == cid)

/-- Write back a mutated connection object (mutation of a `ws` field in the
source updates the one object every container aliases). -/
def setClient (s : ServerState) (c' : Conn) : ServerState :=
  { s with clients := s.clients.map (fun c => if c.cid = c'.cid then c' else c) }

/-- The key `ws.toString()` used for the `sessions` map. Calling `toString`
on a plain WebSocket object yields the same constant string for every
connection. -/
def wsKey (_c : Conn) : String := "[object Object]"

/-- MemStorage.setUserOnlineStatus: update `isOnline` and `lastSeen` of the
stored user if it exists, otherwise do nothing. -/
def setUserOnlineStatus (s : ServerState) (uid : Nat) (b : Bool) (now : Nat) : ServerState :=
  match s.users uid with
  | some u =>
      { s with users := fun v => if v = uid then some { u with isOnline := b, lastSeen := now } else s.users v }
  | none => s

/-- The currently open subset of `wss.clients` (readyState === OPEN). -/
def openClients (s : ServerState) : List Conn :=
  s.clients.filter (fun c => c.isOpen)

/-- broadcastUserStatus: send a `userStatus` envelope to every open client. -/
def broadcastUserStatus (s : ServerState) (uid : Nat) (b : Bool) : List Send :=
  (openClients s).map (fun c => (c.cid, Frame.userStatus uid b))

/-- The final lines of handleDisconnection: delete the `sessions` entry for
`ws.toString()` when present. -/
def sessionsCleanup (c : Conn) (s : ServerState) : ServerState :=
  if (s.sessions (wsKey c)).isSome then
    { s with sessions := fun k => if k = wsKey c then none else s.sessions k }
  else s

/-- handleDisconnection from `src/unnamed/part_002`: when `ws.userId` is
truthy, persist offline, broadcast `userStatus offline`, and delete the
registry entry for that identity; then clean up the sessions map. -/
def handleDisconnection (c : Conn) (now : Nat) (s : ServerState) : ServerState × List Send :=
  let r :=
    match c.boundUser with
    | some uid =>
        if uid != 0 then
          let sA := setUserOnlineStatus s uid false now
          let out := broadcastUserStatus sA uid false
          ({ sA with registry := fun u => if u = uid then none else sA.registry u }, out)
        else (s, [])
    | none => (s, [])
  (sessionsCleanup c r.1, r.2)

/-- A new socket accepted by `wss.on("connection")`: it joins `wss.clients`
and `ws.isAlive = true` is set before authentication. -/
def connOpen (cid : Nat) (s : ServerState) : ServerState :=
  { s with clients := s.clients ++ [{ cid := cid, boundUser := none, isAlive := true, isOpen := true }] }

/-- The successful-authentication tail of the connection handler:
`ws.userId = userId; sessions.set(ws.toString(), userId);
connections.set(userId, ws); await storage.setUserOnlineStatus(userId, true);
broadcastUserStatus(userId, true);`. No-op if the socket is unknown. -/
def authRegister (cid uid now : Nat) (s : ServerState) : ServerState × List Send :=
  match connOf s cid with
  | some c =>
      let c' := { c with boundUser := some uid }
      let s1 := setClient s c'
      let s2 := { s1 with
                    sessions := fun k => if k = wsKey c' then some uid else s1.sessions k,
                    registry := fun u => if u = uid then some cid else s1.registry u }
      let s3 := setUserOnlineStatus s2 uid true now
      (s3, broadcastUserStatus s3 uid true)
  | none => (s, [])

/-- The validated insert payload produced by `insertMessageSchema.parse`. -/
structure InsertMsg where
  content : String
  senderId : Option Nat
  receiverId : Option Nat
  imageUrl : Option String
deriving Repr, DecidableEq

/-- insertMessageSchema.parse (drizzle-zod over the messages table, picking
content/senderId/receiverId/imageUrl): `content` must be present as a string
(the zod type is a bare `z.string()` — the empty string passes, there is no
min-length refinement), the id columns are optional nullable, and unknown
keys such as `type` and the client-side `id` are stripped. A missing or
non-string `content` raises, landing in the handler's catch block. -/
def insertMessageSchemaParse (e : Envelope) : Option InsertMsg :=
  match e.content with
  | some c => some { content := c, senderId := e.senderId, receiverId := e.receiverId, imageUrl := e.imageUrl }
  | none => none

/-- MemStorage.createMessage: assign `currentMessageId++` and `createdAt`,
store and return the new Message record. -/
def createMessage (s : ServerState) (im : InsertMsg) (now : Nat) : ServerState × Msg :=
  let m : Msg := { id := s.nextMsgId, content := im.content, senderId := im.senderId,
                   receiverId := im.receiverId, imageUrl := im.imageUrl, createdAt := now }
  ({ s with msgs := s.msgs ++ [m], nextMsgId := s.nextMsgId + 1 }, m)

/-- connections.get(rid) resolved to the live socket object. -/
def destConn (s : ServerState) (rid : Nat) : Option Conn :=
  (s.registry rid).bind (connOf s)

/-- `const senderWs = connections.get(validatedMessage.senderId!)`: the
socket registered for the client-supplied senderId (never cross-checked
against `ws.userId`). A missing senderId makes the Map lookup miss. -/
def senderSock (vm : InsertMsg) (s1 : ServerState) : Option Conn :=
  (vm.senderId.bind s1.registry).bind (connOf s1)

/-- The delivery confirmation sent right after persist: `messageStatus
delivered` to `senderWs` when it is open, echoing the raw envelope's
client-side `id`. It is emitted before the direct/broadcast split, so it
fires for broadcasts too and regardless of the receiver's state. -/
def deliveredEcho (m : Envelope) (vm : InsertMsg) (s1 : ServerState) : List Send :=
  match senderSock vm s1 with
  | some sw => if sw.isOpen then [(sw.cid, Frame.messageStatus m.id "delivered")] else []
  | none => []

/-- The read receipt `senderWs?.send(...)` sent when a private message's
receiver socket was open: guarded only by optional chaining, not by a
readyState check on the sender's socket. -/
def readEcho (m : Envelope) (vm : InsertMsg) (s1 : ServerState) : List Send :=
  match senderSock vm s1 with
  | some sw => [(sw.cid, Frame.messageStatus m.id "read")]
  | none => []

/-- The dispatch section of the `case 'message'` branch, after a successful
persist: the delivered confirmation, then either the private-message path
(send the record to the receiver's socket when open, followed by the read
receipt) or the broadcast path (send the record to every open client). -/
def dispatchSaved (m : Envelope) (vm : InsertMsg) (saved : Msg) (s1 : ServerState) : List Send :=
  match vm.receiverId with
  | some rid =>
      if rid != 0 then
        match destConn s1 rid with
        | some rw =>
            if rw.isOpen then
              deliveredEcho m vm s1 ++ [(rw.cid, Frame.msgRecord saved)] ++ readEcho m vm s1
            else deliveredEcho m vm s1
        | none => deliveredEcho m vm s1
      else deliveredEcho m vm s1 ++ (openClients s1).map (fun c => (c.cid, Frame.msgRecord saved))
  | none => deliveredEcho m vm s1 ++ (openClients s1).map (fun c => (c.cid, Frame.msgRecord saved))

/-- The `case 'message'` branch of the frame handler: schema-validate,
persist, dispatch; schema and persist failures land in the catch block,
which sends the error envelope back on the same connection. -/
def handleChatMessage (ws : Conn) (m : Envelope) (persistOk : Bool) (now : Nat)
    (s : ServerState) : ServerState × List Send :=
  match insertMessageSchemaParse m with
  | none => (s, [(ws.cid, Frame.errorFrame "Failed to process message")])
  | some vm =>
      if persistOk then
        let r := createMessage s vm now
        (r.1, dispatchSaved m vm r.2 r.1)
      else (s, [(ws.cid, Frame.errorFrame "Failed to process message")])

/-- The broadcast arm of the `case 'typing'` branch: every open client other
than the sending socket itself receives the typing envelope. The branch
reads no state it could change, so it denotes just the list of sends. -/
def typingBroadcast (ws : Conn) (m : Envelope) (s : ServerState) : List Send :=
  (s.clients.filter (fun c => c.cid != ws.cid && c.isOpen)).map
    (fun c => (c.cid, Frame.typingF ws.boundUser m.isTyping))

/-- The `case 'typing'` branch: direct when the raw envelope's receiverId is
truthy (drop silently when the destination socket is absent or not open),
otherwise broadcast excluding the sender. Nothing is persisted and the state
is untouched, so the branch denotes just the list of sends. -/
def handleTypingSignal (ws : Conn) (m : Envelope) (s : ServerState) : List Send :=
  match m.receiverId with
  | some rid =>
      if rid != 0 then
        match destConn s rid with
        | some rc =>
            if rc.isOpen then [(rc.cid, Frame.typingF ws.boundUser m.isTyping)]
            else []
        | none => []
      else typingBroadcast ws m s
  | none => typingBroadcast ws m s

/-- ws.on("message"): JSON.parse failure (raw = none) lands in the catch
block; otherwise switch on `message.type` with no default case, so an
unknown tag is a silent no-op. -/
def handleFrame (ws : Conn) (raw : Option Envelope) (persistOk : Bool) (now : Nat)
    (s : ServerState) : ServerState × List Send :=
  match raw with
  | none => (s, [(ws.cid, Frame.errorFrame "Failed to process message")])
  | some m =>
      if m.etype = "message" then handleChatMessage ws m persistOk now s
      else if m.etype = "typing" then (s, handleTypingSignal ws m s)
      else (s, [])

/-- One connection's step inside the heartbeat interval callback: a socket
whose `isAlive` flag is still false is cleaned up via handleDisconnection and
then terminated; otherwise its flag is cleared and a ping is sent. -/
def reapStep (now : Nat) (s : ServerState) (cid : Nat) : ServerState × List Send :=
  match connOf s cid with
  | some c =>
      if c.isAlive = false then
        let r := handleDisconnection c now s
        (setClient r.1 { c with isOpen := false }, r.2)
      else (setClient s { c with isAlive := false }, [])
  | none => (s, [])

/-- One tick of the 30000ms heartbeat interval: visit every client. -/
def reapTick (now : Nat) (s : ServerState) : ServerState × List Send :=
  (s.clients.map (fun c => c.cid)).foldl
    (fun acc cid =>
      let r := reapStep now acc.1 cid
      (r.1, acc.2 ++ r.2))
    (s, [])

/-- The ws.on("close") / ws.on("error") path (also reached after a
terminate): the socket is no longer open, and handleDisconnection runs. -/
def closeEvent (cid now : Nat) (s : ServerState) : ServerState × List Send :=
  match connOf s cid with
  | some c =>
      let c' := { c with isOpen := false }
      handleDisconnection c' now (setClient s c')
  | none => (s, [])

/-- ws.on("pong"): re-arm the liveness flag. -/
def pongEvent (cid : Nat) (s : ServerState) : ServerState :=
  match connOf s cid with
  | some c => setClient s { c with isAlive := true }
  | none => s

/-- The events the dispatcher can process, in the single-threaded event-loop
model of the source. -/
inductive Op where
  | connect (cid : Nat)
  | authRegister (cid uid now : Nat)
  | frame (cid : Nat) (raw : Option Envelope) (persistOk : Bool) (now : Nat)
  | closeEvt (cid now : Nat)
  | reap (now : Nat)
  | pong (cid : Nat)

/-- Apply one event to the server state, collecting the send attempts. -/
def applyOp (op : Op) (s : ServerState) : ServerState × List Send :=
  match op with
  | .connect cid => (connOpen cid s, [])
  | .authRegister cid uid now => authRegister cid uid now s
  | .frame cid raw persistOk now =>
      match connOf s cid with
      | some c => handleFrame c raw persistOk now s
      | none => (s, [])
  | .closeEvt cid now => closeEvent cid now s
  | .reap now => reapTick now s
  | .pong cid => (pongEvent cid s, [])

/-- Apply a sequence of events, concatenating all send attempts in order. -/
def applyOps (ops : List Op) (s : ServerState) : ServerState × List Send :=
  ops.foldl (fun acc op =>
    let r := applyOp op acc.1
    (r.1, acc.2 ++ r.2)) (s, [])

/-- Client side (`use-websocket.tsx`): the delivery-status enumeration of the
local `messageStatuses` record. -/
inductive MessageStatus where
  | sending
  | sent
  | delivered
  | read
deriving Repr, DecidableEq

/-- getMessageStatus from `use-websocket.tsx`:
`messageStatuses[messageId] || "sending"` — a missing entry falls back to the
provisional status (no status value is JS-falsy, so `||` is exactly a
default for absence). -/
def getMessageStatus (statuses : Nat → Option MessageStatus) (messageId : Nat) : MessageStatus :=
  (statuses messageId).getD MessageStatus.sending

/-! Frame classifiers used to state the routing properties. -/

/-- True exactly on persisted-Message-record frames. -/
def isMsgRecordB : Frame → Bool
  | .msgRecord _ => true
  | _ => false

/-- True exactly on error envelopes. -/
def isErrorB : Frame → Bool
  | .errorFrame _ => true
  | _ => false

/-- True exactly on `messageStatus` envelopes with status `delivered`. -/
def isDeliveredB : Frame → Bool
  | .messageStatus _ st => st == "delivered"
  | _ => false

/-! Concrete fixtures used by the counterexamples and witnesses: two users
(ids 1 and 2), each with one authenticated open socket (object ids 1 and 2),
mirroring the two-user scenario of the spec's testable properties. -/

/-- Build a registry function from an association list. -/
def regOf (l : List (Nat × Nat)) : Nat → Option Nat :=
  fun u => (l.find? (fun p => p.1 == u)).map Prod.snd

/-- Build a users table from an association list. -/
def usersOf (l : List (Nat × UserRec)) : Nat → Option UserRec :=
  fun u => (l.find? (fun p => p.1 == u)).map Prod.snd

/-- User 1's socket: authenticated, alive, open. -/
def connA : Conn := { cid := 1, boundUser := some 1, isAlive := true, isOpen := true }

/-- User 2's socket: authenticated, alive, open. -/
def connB : Conn := { cid := 2, boundUser := some 2, isAlive := true, isOpen := true }

/-- Both users connected and online. -/
def demoState : ServerState :=
  { clients := [connA, connB]
    registry := regOf [(1, 1), (2, 2)]
    sessions := fun _ => none
    users := usersOf [(1, { isOnline := true, lastSeen := 0 }), (2, { isOnline := true, lastSeen := 0 })]
    msgs := []
    nextMsgId := 1 }

/-- Only user 1 connected. -/
def soloState : ServerState :=
  { clients := [connA]
    registry := regOf [(1, 1)]
    sessions := fun _ => none
    users := usersOf [(1, { isOnline := true, lastSeen := 0 })]
    msgs := []
    nextMsgId := 1 }

/-- Like `demoState`, but user 1's socket never acknowledged the last
heartbeat probe (`isAlive = false`), so the next tick reaps it. -/
def reapState : ServerState :=
  { demoState with
      clients := [{ cid := 1, boundUser := some 1, isAlive := false, isOpen := true }, connB] }

/-- A fresh server with an empty storage collaborator. -/
def initState : ServerState :=
  { clients := []
    registry := fun _ => none
    sessions := fun _ => none
    users := fun _ => none
    msgs := []
    nextMsgId := 1 }

/-- A direct chat message from user 1 to user 2 (client temp id 100). -/
def envDirect : Envelope :=
  { etype := "message", id := some 100, content := some "hi", senderId := some 1,
    receiverId := some 2, imageUrl := none, isTyping := none }

/-- A broadcast chat message from user 1 (no receiverId). -/
def envBroadcast : Envelope :=
  { etype := "message", id := some 100, content := some "hello", senderId := some 1,
    receiverId := none, imageUrl := none, isTyping := none }

/-- An envelope arriving on user 1's socket whose senderId claims to be
user 99 and whose content is the empty string. -/
def envSpoof : Envelope :=
  { etype := "message", id := some 5, content := some "", senderId := some 99,
    receiverId := none, imageUrl := none, isTyping := none }

/-- A broadcast typing signal. -/
def envTypingB : Envelope :=
  { etype := "typing", id := none, content := none, senderId := none,
    receiverId := none, imageUrl := none, isTyping := some true }

/-- A direct typing signal aimed at user 2. -/
def envTypingD : Envelope :=
  { etype := "typing", id := none, content := none, senderId := none,
    receiverId := some 2, imageUrl := none, isTyping := some true }

/-- A demonstration event sequence: both users connect and authenticate,
user 1 disconnects, a heartbeat tick passes. -/
def demoOps : List Op :=
  [Op.connect 1, Op.authRegister 1 1 0, Op.connect 2, Op.authRegister 2 2 1,
   Op.closeEvt 1 5, Op.reap 9]

/-! The presence invariant of the spec: a stored user's `isOnline` flag
mirrors membership in the connection registry. -/

/-- For every identity that has a stored Presence Record, `isOnline` holds
exactly when the connection registry has an entry for that identity. -/
def presInv (s : ServerState) : Prop :=
  ∀ u rec, s.users u = some rec → rec.isOnline = (s.registry u).isSome

/-! Projection lemmas: which parts of the state each operation leaves
untouched. -/

theorem setUserOnlineStatus_clients (s : ServerState) (uid : Nat) (b : Bool) (now : Nat) :
    (setUserOnlineStatus s uid b now).clients = s.clients := by
  unfold setUserOnlineStatus; split <;> rfl

theorem setUserOnlineStatus_registry (s : ServerState) (uid : Nat) (b : Bool) (now : Nat) :
    (setUserOnlineStatus s uid b now).registry = s.registry := by
  unfold setUserOnlineStatus; split <;> rfl

theorem setUserOnlineStatus_users_self (s : ServerState) (uid : Nat) (b : Bool) (now : Nat) :
    (setUserOnlineStatus s uid b now).users uid
      = (s.users uid).map (fun u0 => { u0 with isOnline := b, lastSeen := now }) := by
  unfold setUserOnlineStatus
  cases h : s.users uid with
  | none => simp [h]
  | some u0 => simp [h]

theorem setUserOnlineStatus_users_other (s : ServerState) (uid v : Nat) (b : Bool) (now : Nat)
    (hv : v ≠ uid) : (setUserOnlineStatus s uid b now).users v = s.users v := by
  unfold setUserOnlineStatus
  cases h : s.users uid with
  | none => rfl
  | some u0 => simp [hv]

theorem sessionsCleanup_users (c : Conn) (s : ServerState) :
    (sessionsCleanup c s).users = s.users := by
  unfold sessionsCleanup; split <;> rfl

theorem sessionsCleanup_registry (c : Conn) (s : ServerState) :
    (sessionsCleanup c s).registry = s.registry := by
  unfold sessionsCleanup; split <;> rfl

theorem sessionsCleanup_clients (c : Conn) (s : ServerState) :
    (sessionsCleanup c s).clients = s.clients := by
  unfold sessionsCleanup; split <;> rfl

/-- handleDisconnection keeps the presence invariant: the identity it marks
offline is exactly the one whose registry entry it deletes. -/
theorem presInv_handleDisconnection (c : Conn) (now : Nat) (s : ServerState)
    (h : presInv s) : presInv (handleDisconnection c now s).1 := by
  unfold handleDisconnection
  cases hb : c.boundUser with
  | none =>
      intro u rec hu
      rw [sessionsCleanup_users] at hu
      rw [sessionsCleanup_registry]
      exact h u rec hu
  | some uid =>
      by_cases hz : uid = 0
      · subst hz
        intro u rec hu
        simp only [bne_self_eq_false, if_false] at hu ⊢
        rw [sessionsCleanup_users] at hu
        rw [sessionsCleanup_registry]
        exact h u rec hu
      · have hz' : (uid != 0) = true := by simpa using hz
        intro u rec hu
        simp only [hz', if_true] at hu ⊢
        rw [sessionsCleanup_users] at hu
        rw [sessionsCleanup_registry]
        dsimp only at hu ⊢
        by_cases huu : u = uid
        · subst huu
          simp only [if_pos rfl, Option.isSome_none]
          unfold setUserOnlineStatus at hu
          cases hus : s.users u with
          | none => rw [hus] at hu; dsimp only at hu; rw [hus] at hu; exact absurd hu (by simp)
          | some u0 =>
              rw [hus] at hu; dsimp only at hu
              rw [if_pos rfl] at hu
              cases hu; rfl
        · rw [if_neg huu]
          rw [setUserOnlineStatus_registry]
          unfold setUserOnlineStatus at hu
          cases hus : s.users uid with
          | none => rw [hus] at hu; exact h u rec hu
          | some u0 =>
              rw [hus] at hu; dsimp only at hu
              rw [if_neg huu] at hu
              exact h u rec hu

/-- Registration keeps the presence invariant: the identity whose registry
entry it writes is exactly the one it marks online. -/
theorem presInv_authRegister (cid uid now : Nat) (s : ServerState)
    (h : presInv s) : presInv (authRegister cid uid now s).1 := by
  unfold authRegister
  cases hc : connOf s cid with
  | none => exact h
  | some c =>
      intro u rec hu
      dsimp only at hu ⊢
      rw [setUserOnlineStatus_registry]
      dsimp only
      by_cases huu : u = uid
      · subst huu
        rw [if_pos rfl]
        rw [setUserOnlineStatus_users_self] at hu
        dsimp only [setClient] at hu
        cases hus : s.users u with
        | none => rw [hus] at hu; simp at hu
        | some u0 =>
            rw [hus] at hu
            simp only [Option.map_some'] at hu
            injection hu with h2
            rw [← h2]
            rfl
      · rw [if_neg huu]
        rw [setUserOnlineStatus_users_other _ _ _ _ _ huu] at hu
        dsimp only [setClient] at hu ⊢
        exact h u rec hu

theorem handleChatMessage_users (ws : Conn) (m : Envelope) (p : Bool) (now : Nat)
    (s : ServerState) : ((handleChatMessage ws m p now s).1).users = s.users := by
  unfold handleChatMessage createMessage
  split
  · rfl
  · split <;> rfl

theorem handleChatMessage_registry (ws : Conn) (m : Envelope) (p : Bool) (now : Nat)
    (s : ServerState) : ((handleChatMessage ws m p now s).1).registry = s.registry := by
  unfold handleChatMessage createMessage
  split
  · rfl
  · split <;> rfl

/-- The frame handler never touches the users table or the registry (it only
appends to the message table on a successful persist). -/
theorem presInv_handleFrame (ws : Conn) (raw : Option Envelope) (p : Bool) (now : Nat)
    (s : ServerState) (h : presInv s) : presInv (handleFrame ws raw p now s).1 := by
  cases raw with
  | none => exact h
  | some m =>
      show presInv (if m.etype = "message" then handleChatMessage ws m p now s
        else if m.etype = "typing" then (s, handleTypingSignal ws m s) else (s, [])).1
      by_cases h1 : m.etype = "message"
      · rw [if_pos h1]
        intro u rec hu
        rw [handleChatMessage_users] at hu
        rw [handleChatMessage_registry]
        exact h u rec hu
      · rw [if_neg h1]
        by_cases h2 : m.etype = "typing"
        · rw [if_pos h2]
          exact h
        · rw [if_neg h2]
          exact h

theorem presInv_reapStep (now : Nat) (s : ServerState) (cid : Nat)
    (h : presInv s) : presInv (reapStep now s cid).1 := by
  unfold reapStep
  cases hc : connOf s cid with
  | none => exact h
  | some c =>
      dsimp only
      split
      · exact presInv_handleDisconnection c now s h
      · exact h

theorem presInv_reapTick (now : Nat) (s : ServerState)
    (h : presInv s) : presInv (reapTick now s).1 := by
  unfold reapTick
  generalize (s.clients.map (fun c => c.cid)) = cids
  suffices H : ∀ (acc : ServerState × List Send), presInv acc.1 →
      presInv ((cids.foldl (fun acc cid =>
        let r := reapStep now acc.1 cid
        (r.1, acc.2 ++ r.2)) acc).1) from H (s, []) h
  induction cids with
  | nil => intro acc hacc; exact hacc
  | cons c t ih =>
      intro acc hacc
      exact ih _ (presInv_reapStep now acc.1 c hacc)

theorem presInv_closeEvent (cid now : Nat) (s : ServerState)
    (h : presInv s) : presInv (closeEvent cid now s).1 := by
  unfold closeEvent
  cases hc : connOf s cid with
  | none => exact h
  | some c => exact presInv_handleDisconnection _ now _ h

theorem presInv_pongEvent (cid : Nat) (s : ServerState)
    (h : presInv s) : presInv (pongEvent cid s) := by
  unfold pongEvent
  cases hc : connOf s cid with
  | none => exact h
  | some c => exact h

/-- Every dispatcher event preserves the presence invariant. -/
theorem presInv_applyOp (op : Op) (s : ServerState)
    (h : presInv s) : presInv (applyOp op s).1 := by
  cases op with
  | connect cid => exact h
  | authRegister cid uid now => exact presInv_authRegister cid uid now s h
  | frame cid raw p now =>
      show presInv (match connOf s cid with
        | some c => handleFrame c raw p now s
        | none => (s, [])).1
      cases hc : connOf s cid with
      | none => exact h
      | some c => exact presInv_handleFrame c raw p now s h
  | closeEvt cid now => exact presInv_closeEvent cid now s h
  | reap now => exact presInv_reapTick now s h
  | pong cid => exact presInv_pongEvent cid s h

/-- C2: for every identity, after every completed dispatcher event (in
particular after every registration and after every disconnect cleanup,
whether from a close/error event or a heartbeat reap), the stored Presence
Record's `isOnline` flag is true exactly when the identity has an entry in
the connection registry. The code maintains this because the offline write
in handleDisconnection is always paired with the `connections.delete` for
the same identity, and the online write in registration is paired with the
`connections.set`. -/
theorem presence_matches_registry (ops : List Op) (s : ServerState) (h : presInv s) :
    presInv (applyOps ops s).1 := by
  unfold applyOps
  suffices H : ∀ (acc : ServerState × List Send), presInv acc.1 →
      presInv ((ops.foldl (fun acc op =>
        let r := applyOp op acc.1
        (r.1, acc.2 ++ r.2)) acc).1) from H (s, []) h
  induction ops with
  | nil => intro acc hacc; exact hacc
  | cons o t ih => intro acc hacc; exact ih _ (presInv_applyOp o acc.1 hacc)

/-- Witness for C2 on a fresh server and a concrete event sequence. -/
theorem presence_matches_registry_witness :
    presInv initState ∧ presInv (applyOps demoOps initState).1 := by
  have h0 : presInv initState := by
    intro u rec hu
    simp [initState] at hu
  exact ⟨h0, presence_matches_registry demoOps initState h0⟩

/-- C10: a message id with no entry in the client's local delivery-status
map gets the provisional status `sending` from getMessageStatus, rather than
a failure or an absent value. -/
theorem getMessageStatus_default (statuses : Nat → Option MessageStatus) (messageId : Nat)
    (h : statuses messageId = none) :
    getMessageStatus statuses messageId = MessageStatus.sending := by
  unfold getMessageStatus
  rw [h]
  rfl

/-- Witness for C10 on the empty status map. -/
theorem getMessageStatus_default_witness :
    ((fun _ : Nat => (none : Option MessageStatus)) 5 = none)
    ∧ getMessageStatus (fun _ => none) 5 = MessageStatus.sending :=
  ⟨rfl, getMessageStatus_default (fun _ => none) 5 rfl⟩

/-- C1 counterexample: user 1 sends a direct message to user 2 while user
2's socket is registered and open. The persisted record reaches user 2's
connection (cid 2) exactly once, but the sender's connection (cid 1)
receives zero copies of the record — the router only sends it to the
receiver, so the claim's "exactly once to the sender's connection" fails. -/
theorem direct_record_not_echoed_cex :
    (demoState.registry 2 = some 2)
    ∧ (connOf demoState 2 = some connB)
    ∧ (connB.isOpen = true)
    ∧ ((handleFrame connA (some envDirect) true 7 demoState).2.countP
        (fun p => p.1 == 2 && isMsgRecordB p.2) = 1)
    ∧ ((handleFrame connA (some envDirect) true 7 demoState).2.countP
        (fun p => p.1 == 1 && isMsgRecordB p.2) = 0) := by decide

/-- C3 counterexample: user 1 is connected on socket 1, then a second
authenticated socket (cid 2) registers for the same identity. The registry
now maps identity 1 to the new socket, but the prior socket is still open:
nothing was evicted or closed by the registration code, which only does
`connections.set(userId, ws)`. -/
theorem register_no_eviction_cex :
    ((applyOps [Op.connect 2, Op.authRegister 2 1 9] soloState).1.registry 1 = some 2)
    ∧ ((connOf (applyOps [Op.connect 2, Op.authRegister 2 1 9] soloState).1 1).map Conn.isOpen
        = some true) := by decide

/-- C4 counterexample: an envelope arriving on user 1's socket with
`senderId = 99` (not the bound identity) and empty content passes
`insertMessageSchema.parse`, is persisted, and is broadcast to both open
sockets; no error envelope is produced. The router never compares senderId
with `ws.userId` and the schema has no non-empty-content refinement. -/
theorem spoofed_sender_accepted_cex :
    (connA.boundUser = some 1)
    ∧ (envSpoof.senderId = some 99)
    ∧ (envSpoof.content = some "")
    ∧ ((handleFrame connA (some envSpoof) true 4 demoState).1.msgs.length = 1)
    ∧ ((handleFrame connA (some envSpoof) true 4 demoState).2.countP (fun p => isErrorB p.2) = 0)
    ∧ ((2, Frame.msgRecord { id := 1, content := "", senderId := some 99,
                             receiverId := none, imageUrl := none, createdAt := 4 })
        ∈ (handleFrame connA (some envSpoof) true 4 demoState).2) := by decide

/-- C6 counterexample: a broadcast message (no receiverId) still triggers a
`messageStatus delivered` envelope to the sender's socket, because the
delivered confirmation is emitted right after persist, before the
direct/broadcast split; the claim says no delivered status is emitted for
broadcast messages. -/
theorem broadcast_delivered_status_cex :
    (envBroadcast.receiverId = none)
    ∧ ((1, Frame.messageStatus (some 100) "delivered")
        ∈ (handleFrame connA (some envBroadcast) true 7 demoState).2) := by decide

/-! Helper lemmas about the message-dispatch output lists. -/

theorem deliveredEcho_frames (m : Envelope) (vm : InsertMsg) (s1 : ServerState) (x : Send)
    (hx : x ∈ deliveredEcho m vm s1) : x.2 = Frame.messageStatus m.id "delivered" := by
  unfold deliveredEcho at hx
  split at hx
  · split at hx
    · simp only [List.mem_singleton] at hx
      rw [hx]
    · simp at hx
  · simp at hx

theorem readEcho_frames (m : Envelope) (vm : InsertMsg) (s1 : ServerState) (x : Send)
    (hx : x ∈ readEcho m vm s1) : x.2 = Frame.messageStatus m.id "read" := by
  unfold readEcho at hx
  split at hx
  · simp only [List.mem_singleton] at hx
    rw [hx]
  · simp at hx

/-- Every frame the message dispatcher emits is the delivered confirmation,
the persisted record itself, or the read receipt. -/
theorem dispatchSaved_mem (m : Envelope) (vm : InsertMsg) (saved : Msg) (s1 : ServerState)
    (x : Send) (hx : x ∈ dispatchSaved m vm saved s1) :
    x.2 = Frame.messageStatus m.id "delivered" ∨ x.2 = Frame.msgRecord saved
      ∨ x.2 = Frame.messageStatus m.id "read" := by
  unfold dispatchSaved at hx
  split at hx
  · split at hx
    · split at hx
      · split at hx
        · rcases List.mem_append.mp hx with hA | hR
          · rcases List.mem_append.mp hA with hD | hM
            · exact Or.inl (deliveredEcho_frames _ _ _ _ hD)
            · simp only [List.mem_singleton] at hM
              exact Or.inr (Or.inl (by rw [hM]))
          · exact Or.inr (Or.inr (readEcho_frames _ _ _ _ hR))
        · exact Or.inl (deliveredEcho_frames _ _ _ _ hx)
      · exact Or.inl (deliveredEcho_frames _ _ _ _ hx)
    · rcases List.mem_append.mp hx with hD | hM
      · exact Or.inl (deliveredEcho_frames _ _ _ _ hD)
      · rcases List.mem_map.mp hM with ⟨c, _, hc⟩
        exact Or.inr (Or.inl (by rw [← hc]))
  · rcases List.mem_append.mp hx with hD | hM
    · exact Or.inl (deliveredEcho_frames _ _ _ _ hD)
    · rcases List.mem_map.mp hM with ⟨c, _, hc⟩
      exact Or.inr (Or.inl (by rw [← hc]))

theorem deliveredEcho_filter_record (m : Envelope) (vm : InsertMsg) (s1 : ServerState) :
    (deliveredEcho m vm s1).filter (fun p => isMsgRecordB p.2) = [] := by
  unfold deliveredEcho
  split
  · split
    · simp [isMsgRecordB]
    · rfl
  · rfl

theorem readEcho_filter_record (m : Envelope) (vm : InsertMsg) (s1 : ServerState) :
    (readEcho m vm s1).filter (fun p => isMsgRecordB p.2) = [] := by
  unfold readEcho
  split
  · simp [isMsgRecordB]
  · rfl

theorem deliveredEcho_filter_delivered (m : Envelope) (vm : InsertMsg) (s1 : ServerState) :
    (deliveredEcho m vm s1).filter (fun p => isDeliveredB p.2) = deliveredEcho m vm s1 := by
  unfold deliveredEcho
  split
  · split
    · simp [isDeliveredB]
    · rfl
  · rfl

theorem readEcho_filter_delivered (m : Envelope) (vm : InsertMsg) (s1 : ServerState) :
    (readEcho m vm s1).filter (fun p => isDeliveredB p.2) = [] := by
  unfold readEcho
  split
  · simp [isDeliveredB]
  · rfl

theorem recordMap_filter_delivered (saved : Msg) (l : List Conn) :
    ((l.map (fun c => (c.cid, Frame.msgRecord saved))).filter
        (fun p => isDeliveredB p.2)) = [] := by
  induction l with
  | nil => rfl
  | cons a t ih => simp [isDeliveredB, ih]

theorem deliveredEcho_countP_record (m : Envelope) (vm : InsertMsg) (s1 : ServerState) (x : Nat) :
    (deliveredEcho m vm s1).countP (fun p => p.1 == x && isMsgRecordB p.2) = 0 := by
  unfold deliveredEcho
  split
  · split
    · simp [isMsgRecordB]
    · rfl
  · rfl

/-! Reduction lemmas: the state returned by createMessage differs from its
input only in the message table, so every connection lookup reads the same
registry and client list. -/

theorem destConn_createMessage (s : ServerState) (im : InsertMsg) (now rid : Nat) :
    destConn (createMessage s im now).1 rid = destConn s rid := rfl

theorem deliveredEcho_createMessage (m : Envelope) (vm im : InsertMsg) (s : ServerState) (now : Nat) :
    deliveredEcho m vm (createMessage s im now).1 = deliveredEcho m vm s := rfl

theorem readEcho_createMessage (m : Envelope) (vm im : InsertMsg) (s : ServerState) (now : Nat) :
    readEcho m vm (createMessage s im now).1 = readEcho m vm s := rfl

theorem openClients_createMessage (s : ServerState) (im : InsertMsg) (now : Nat) :
    openClients (createMessage s im now).1 = openClients s := rfl

/-- The insert payload `insertMessageSchema.parse` yields for an envelope
whose content field is the string `str`. -/
def vmOf (e : Envelope) (str : String) : InsertMsg :=
  { content := str, senderId := e.senderId, receiverId := e.receiverId, imageUrl := e.imageUrl }

/-- The Message record MemStorage.createMessage persists for that payload:
the next message id, the client-supplied sender/receiver ids, and the
current time. -/
def savedOf (s : ServerState) (e : Envelope) (str : String) (now : Nat) : Msg :=
  { id := s.nextMsgId, content := str, senderId := e.senderId, receiverId := e.receiverId,
    imageUrl := e.imageUrl, createdAt := now }

theorem handleFrame_message (ws : Conn) (e : Envelope) (p : Bool) (now : Nat) (s : ServerState)
    (h1 : e.etype = "message") :
    handleFrame ws (some e) p now s = handleChatMessage ws e p now s := by
  show (if e.etype = "message" then handleChatMessage ws e p now s
    else if e.etype = "typing" then (s, handleTypingSignal ws e s) else (s, [])) = _
  rw [if_pos h1]

theorem handleFrame_typing (ws : Conn) (e : Envelope) (p : Bool) (now : Nat) (s : ServerState)
    (h1 : e.etype = "typing") :
    handleFrame ws (some e) p now s = (s, handleTypingSignal ws e s) := by
  show (if e.etype = "message" then handleChatMessage ws e p now s
    else if e.etype = "typing" then (s, handleTypingSignal ws e s) else (s, [])) = _
  rw [h1]
  rw [if_neg (by decide), if_pos rfl]

theorem insertMessageSchemaParse_some (e : Envelope) (str : String) (h2 : e.content = some str) :
    insertMessageSchemaParse e = some (vmOf e str) := by
  unfold insertMessageSchemaParse vmOf
  rw [h2]

theorem handleChatMessage_persist (ws : Conn) (e : Envelope) (str : String) (now : Nat)
    (s : ServerState) (h2 : e.content = some str) :
    handleChatMessage ws e true now s
      = ((createMessage s (vmOf e str) now).1,
         dispatchSaved e (vmOf e str) (savedOf s e str now) (createMessage s (vmOf e str) now).1) := by
  unfold handleChatMessage
  rw [insertMessageSchemaParse_some e str h2]
  rfl

theorem handleChatMessage_persistFail (ws : Conn) (e : Envelope) (str : String) (now : Nat)
    (s : ServerState) (h2 : e.content = some str) :
    handleChatMessage ws e false now s
      = (s, [(ws.cid, Frame.errorFrame "Failed to process message")]) := by
  unfold handleChatMessage
  rw [insertMessageSchemaParse_some e str h2]
  rfl

/-- C5: the persist call completes before any delivery attempt. When the
storage collaborator's createMessage rejects, the state is unchanged (nothing
persisted, the connection list untouched so the sender's socket is still
open) and the only send is the error envelope back to the sender's own
socket; and on the successful path every Message-record frame the router
emits carries a record that is in the post-persist message table. -/
theorem persist_before_delivery (ws : Conn) (e : Envelope) (str : String) (now : Nat)
    (s : ServerState) (h1 : e.etype = "message") (h2 : e.content = some str) :
    (handleFrame ws (some e) false now s
        = (s, [(ws.cid, Frame.errorFrame "Failed to process message")]))
    ∧ (∀ cid mm, (cid, Frame.msgRecord mm) ∈ (handleFrame ws (some e) true now s).2 →
        mm ∈ (handleFrame ws (some e) true now s).1.msgs) := by
  constructor
  · rw [handleFrame_message ws e false now s h1]
    exact handleChatMessage_persistFail ws e str now s h2
  · intro cid mm hmm
    rw [handleFrame_message ws e true now s h1, handleChatMessage_persist ws e str now s h2] at hmm ⊢
    rcases dispatchSaved_mem _ _ _ _ _ hmm with h3 | h3 | h3
    · exact absurd h3 (by simp)
    · have hms : mm = savedOf s e str now := by injection h3
      rw [hms]
      show savedOf s e str now ∈ (createMessage s (vmOf e str) now).1.msgs
      simp [createMessage, savedOf, vmOf]
    · exact absurd h3 (by simp)

/-- Witness for C5: user 1's direct message with persistence failing. -/
theorem persist_before_delivery_witness :
    (envDirect.content = some "hi")
    ∧ handleFrame connA (some envDirect) false 7 demoState
        = (demoState, [(1, Frame.errorFrame "Failed to process message")]) :=
  ⟨rfl, (persist_before_delivery connA envDirect "hi" 7 demoState rfl rfl).1⟩

/-- C4 (amended): the router's only inbound validation is the schema shape —
`content` must be present as a string, and the empty string passes. The
client-supplied senderId is stored verbatim in the persisted record (the
statement's `savedOf` uses the envelope's senderId and never mentions the
receiving socket's bound identity), the message is dispatched normally, and
no error envelope is produced. A senderId that differs from the connection's
bound identity is therefore accepted, not rejected. -/
theorem schema_validation_only (ws : Conn) (e : Envelope) (str : String) (now : Nat)
    (s : ServerState) (h1 : e.etype = "message") (h2 : e.content = some str) :
    ((handleFrame ws (some e) true now s).1.msgs = s.msgs ++ [savedOf s e str now])
    ∧ (∀ cid msg, (cid, Frame.errorFrame msg) ∉ (handleFrame ws (some e) true now s).2) := by
  constructor
  · rw [handleFrame_message ws e true now s h1, handleChatMessage_persist ws e str now s h2]
    rfl
  · intro cid msg hmem
    rw [handleFrame_message ws e true now s h1, handleChatMessage_persist ws e str now s h2] at hmem
    rcases dispatchSaved_mem _ _ _ _ _ hmem with h3 | h3 | h3 <;> exact absurd h3 (by simp)

/-- Witness for C4: the spoofed-sender empty-content envelope is persisted
with senderId 99 and no error envelope reaches any socket. -/
theorem schema_validation_only_witness :
    (envSpoof.content = some "")
    ∧ ((handleFrame connA (some envSpoof) true 4 demoState).1.msgs
        = demoState.msgs ++ [savedOf demoState envSpoof "" 4])
    ∧ ((1, Frame.errorFrame "Failed to process message")
        ∉ (handleFrame connA (some envSpoof) true 4 demoState).2) :=
  ⟨rfl, (schema_validation_only connA envSpoof "" 4 demoState rfl rfl).1,
    (schema_validation_only connA envSpoof "" 4 demoState rfl rfl).2 1 "Failed to process message"⟩

/-- C7 counterexample: user 1's socket never acknowledged the heartbeat
probe. The reap tick runs handleDisconnection and terminates the socket;
the terminate fires the close event, whose handler runs handleDisconnection
again, and because `ws.userId` is never cleared the second invocation
re-broadcasts `userStatus offline`. User 2's socket observes the offline
broadcast twice, where the claim requires exactly one and a no-op second
cleanup. -/
theorem double_offline_broadcast_cex :
    ((applyOps [Op.reap 9, Op.closeEvt 1 9] reapState).2.countP
        (fun p => p == (2, Frame.userStatus 1 false)) = 2) := by decide

theorem vmOf_receiverId (e : Envelope) (str : String) : (vmOf e str).receiverId = e.receiverId := rfl

/-- C1 (amended): for a direct message handled while the receiver identity
has a registered open socket, the persisted Message record is sent exactly
once to the receiver's connection and to no other connection — the filter of
the router's output on record frames is exactly the one send to the
receiver's socket. In particular the sender's connection receives no copy of
the record; it is sent `messageStatus` envelopes instead. -/
theorem direct_record_delivery (ws : Conn) (e : Envelope) (str : String) (rid rcid : Nat)
    (rc : Conn) (now : Nat) (s : ServerState)
    (h1 : e.etype = "message") (h2 : e.content = some str)
    (h3 : e.receiverId = some rid) (h4 : rid ≠ 0)
    (h5 : s.registry rid = some rcid) (h6 : connOf s rcid = some rc)
    (h7 : rc.isOpen = true) :
    ((handleFrame ws (some e) true now s).2.filter (fun p => isMsgRecordB p.2))
      = [(rc.cid, Frame.msgRecord (savedOf s e str now))] := by
  rw [handleFrame_message ws e true now s h1, handleChatMessage_persist ws e str now s h2]
  dsimp only
  unfold dispatchSaved
  rw [vmOf_receiverId, h3]
  dsimp only
  rw [if_pos (by simpa using h4)]
  rw [destConn_createMessage]
  unfold destConn
  rw [h5]
  show ((match connOf s rcid with
    | some rc =>
        if rc.isOpen then
          deliveredEcho e (vmOf e str) (createMessage s (vmOf e str) now).1
            ++ [(rc.cid, Frame.msgRecord (savedOf s e str now))]
            ++ readEcho e (vmOf e str) (createMessage s (vmOf e str) now).1
        else deliveredEcho e (vmOf e str) (createMessage s (vmOf e str) now).1
    | none => deliveredEcho e (vmOf e str) (createMessage s (vmOf e str) now).1).filter
      (fun p : Send => isMsgRecordB p.2)) = _
  rw [h6]
  dsimp only
  rw [if_pos h7]
  rw [List.filter_append, List.filter_append]
  rw [deliveredEcho_createMessage, readEcho_createMessage,
      deliveredEcho_filter_record, readEcho_filter_record]
  simp [isMsgRecordB]

/-- Witness for C1 (amended) in the two-user scenario. -/
theorem direct_record_delivery_witness :
    (envDirect.receiverId = some 2)
    ∧ ((handleFrame connA (some envDirect) true 7 demoState).2.filter
        (fun p => isMsgRecordB p.2))
      = [(2, Frame.msgRecord (savedOf demoState envDirect "hi" 7))] :=
  ⟨rfl, direct_record_delivery connA envDirect "hi" 2 2 connB 7 demoState rfl rfl rfl
    (by decide) (by decide) (by decide) rfl⟩

/-- C6 (amended): the `delivered` status envelope is emitted exactly when
the socket registered for the envelope's (client-supplied) senderId is open
at dispatch time — for direct and broadcast messages alike, and regardless
of whether the receiver's socket is open — because the confirmation is sent
right after persist, before the direct/broadcast split. The filter of the
router's output on delivered-status frames is exactly `deliveredEcho`. -/
theorem delivered_status_emission (ws : Conn) (e : Envelope) (str : String) (now : Nat)
    (s : ServerState) (h1 : e.etype = "message") (h2 : e.content = some str) :
    ((handleFrame ws (some e) true now s).2.filter (fun p => isDeliveredB p.2))
      = deliveredEcho e (vmOf e str) s := by
  rw [handleFrame_message ws e true now s h1, handleChatMessage_persist ws e str now s h2]
  dsimp only
  unfold dispatchSaved
  rw [vmOf_receiverId]
  cases hr : e.receiverId with
  | none =>
      dsimp only
      rw [List.filter_append, deliveredEcho_createMessage, openClients_createMessage,
          deliveredEcho_filter_delivered, recordMap_filter_delivered, List.append_nil]
  | some rid =>
      dsimp only
      by_cases hz : (rid != 0) = true
      · rw [if_pos hz]
        cases hd : destConn (createMessage s (vmOf e str) now).1 rid with
        | none =>
            dsimp only
            rw [deliveredEcho_createMessage, deliveredEcho_filter_delivered]
        | some rc =>
            dsimp only
            by_cases ho : rc.isOpen = true
            · rw [if_pos ho]
              rw [List.filter_append, List.filter_append]
              rw [deliveredEcho_createMessage, readEcho_createMessage,
                  deliveredEcho_filter_delivered, readEcho_filter_delivered]
              simp [isDeliveredB]
            · rw [if_neg ho]
              rw [deliveredEcho_createMessage, deliveredEcho_filter_delivered]
      · rw [if_neg hz]
        rw [List.filter_append, deliveredEcho_createMessage, openClients_createMessage,
            deliveredEcho_filter_delivered, recordMap_filter_delivered, List.append_nil]

/-- Witness for C6 (amended): for the broadcast envelope the delivered
confirmation goes to the sender's open socket. -/
theorem delivered_status_emission_witness :
    (envBroadcast.etype = "message")
    ∧ ((handleFrame connA (some envBroadcast) true 7 demoState).2.filter
        (fun p => isDeliveredB p.2))
      = [(1, Frame.messageStatus (some 100) "delivered")] := by
  refine ⟨rfl, ?_⟩
  rw [delivered_status_emission connA envBroadcast "hello" 7 demoState rfl rfl]
  decide

/-- Every frame the typing relay emits is a typing envelope carrying the
sending socket's bound identity and the raw isTyping flag. -/
theorem handleTypingSignal_frames (ws : Conn) (e : Envelope) (s : ServerState) (x : Send)
    (hx : x ∈ handleTypingSignal ws e s) :
    x.2 = Frame.typingF ws.boundUser e.isTyping := by
  unfold handleTypingSignal typingBroadcast at hx
  split at hx
  · split at hx
    · split at hx
      · split at hx
        · simp only [List.mem_singleton] at hx
          rw [hx]
        · simp at hx
      · simp at hx
    · rcases List.mem_map.mp hx with ⟨c, _, hc⟩
      rw [← hc]
  · rcases List.mem_map.mp hx with ⟨c, _, hc⟩
    rw [← hc]

/-- C9: a typing signal is routed with the message router's destination
logic — direct to the registered socket when a truthy target identity is
given (dropped silently, with no error envelope, when that socket is absent
or not open), otherwise broadcast — except that the sender's own socket
never receives its broadcast echo; the state (in particular the message
table) is untouched. -/
theorem typing_routing (ws : Conn) (e : Envelope) (p : Bool) (now : Nat) (s : ServerState)
    (h1 : e.etype = "typing") :
    ((handleFrame ws (some e) p now s).1 = s)
    ∧ (∀ cid msg, (cid, Frame.errorFrame msg) ∉ (handleFrame ws (some e) p now s).2)
    ∧ (∀ rid, e.receiverId = some rid → rid ≠ 0 →
        (handleFrame ws (some e) p now s).2
          = (match destConn s rid with
             | some rc => if rc.isOpen then [(rc.cid, Frame.typingF ws.boundUser e.isTyping)] else []
             | none => []))
    ∧ (truthyN e.receiverId = false →
        ((handleFrame ws (some e) p now s).2
            = (s.clients.filter (fun c => c.cid != ws.cid && c.isOpen)).map
                (fun c => (c.cid, Frame.typingF ws.boundUser e.isTyping)))
          ∧ (∀ f, (ws.cid, f) ∉ (handleFrame ws (some e) p now s).2)) := by
  rw [handleFrame_typing ws e p now s h1]
  refine ⟨rfl, ?_, ?_, ?_⟩
  · intro cid msg hmem
    have := handleTypingSignal_frames ws e s _ hmem
    simp at this
  · intro rid hrid hz
    show handleTypingSignal ws e s = _
    unfold handleTypingSignal
    rw [hrid]
    dsimp only
    rw [if_pos (by simpa using hz)]
  · intro htr
    have hbc : handleTypingSignal ws e s
        = (s.clients.filter (fun c => c.cid != ws.cid && c.isOpen)).map
            (fun c => (c.cid, Frame.typingF ws.boundUser e.isTyping)) := by
      unfold handleTypingSignal typingBroadcast
      cases hr : e.receiverId with
      | none => rfl
      | some rid =>
          rw [hr] at htr
          simp only [truthyN] at htr
          dsimp only
          rw [if_neg (by simp [htr])]
    refine ⟨hbc, ?_⟩
    intro f hmem
    rw [hbc] at hmem
    rcases List.mem_map.mp hmem with ⟨c, hcf, hc⟩
    have hfst : c.cid = ws.cid := congrArg Prod.fst hc
    have hcond := (List.mem_filter.mp hcf).2
    rw [hfst] at hcond
    simp at hcond

/-- Witness for C9: the broadcast typing signal from user 1 reaches only
user 2's socket. -/
theorem typing_routing_witness :
    (envTypingB.etype = "typing")
    ∧ (handleFrame connA (some envTypingB) true 0 demoState).2
        = [(2, Frame.typingF (some 1) (some true))] := by
  refine ⟨rfl, ?_⟩
  rw [((typing_routing connA envTypingB true 0 demoState rfl).2.2.2 rfl).1]
  decide

/-- In a client list with pairwise distinct object ids, the open sockets
matching a member socket's id number exactly one when that socket is open
and zero when it is not. -/
theorem countP_cid_open (c : Conn) : ∀ (l : List Conn), (l.map Conn.cid).Nodup → c ∈ l →
    (l.filter (fun d => d.isOpen)).countP (fun d => d.cid == c.cid)
      = if c.isOpen then 1 else 0 := by
  intro l
  induction l with
  | nil => intro _ hc; cases hc
  | cons a t ih =>
      intro hnd hc
      rw [List.map_cons, List.nodup_cons] at hnd
      obtain ⟨ha, ht⟩ := hnd
      rcases List.mem_cons.mp hc with rfl | hct
      · have hzero : (t.filter (fun d => d.isOpen)).countP (fun d => d.cid == c.cid) = 0 := by
          rw [List.countP_eq_zero]
          intro d hd
          have hdt : d ∈ t := List.mem_of_mem_filter hd
          simp only [beq_iff_eq]
          intro hdc
          exact ha (hdc ▸ List.mem_map_of_mem Conn.cid hdt)
        by_cases ho : c.isOpen
        · rw [List.filter_cons_of_pos ho, List.countP_cons_of_pos _ _ (by simp), hzero,
              if_pos ho]
        · rw [List.filter_cons_of_neg (by simpa using ho), hzero, if_neg ho]
      · have hac : (a.cid == c.cid) = false := by
          simp only [beq_eq_false_iff_ne]
          intro hEq
          exact ha (hEq ▸ List.mem_map_of_mem Conn.cid hct)
        by_cases ho : a.isOpen
        · rw [List.filter_cons_of_pos ho, List.countP_cons_of_neg _ _ (by simp [hac]),
              ih ht hct]
        · rw [List.filter_cons_of_neg (by simpa using ho), ih ht hct]

/-- C8: a broadcast message (falsy receiverId) handled while the client list
has pairwise distinct sockets is delivered to every open socket exactly once
(the sender's socket is the instance `c := ws`), to no closed socket, and
every record frame it emits carries the persisted record. -/
theorem broadcast_message_delivery (ws : Conn) (e : Envelope) (str : String) (now : Nat)
    (s : ServerState) (c : Conn)
    (h1 : e.etype = "message") (h2 : e.content = some str)
    (h3 : truthyN e.receiverId = false)
    (h4 : (s.clients.map Conn.cid).Nodup) (h5 : c ∈ s.clients) :
    (((handleFrame ws (some e) true now s).2.countP
        (fun p => p.1 == c.cid && isMsgRecordB p.2)) = if c.isOpen then 1 else 0)
    ∧ (∀ cid mm, (cid, Frame.msgRecord mm) ∈ (handleFrame ws (some e) true now s).2 →
        mm = savedOf s e str now) := by
  have hbc : (handleFrame ws (some e) true now s).2
      = deliveredEcho e (vmOf e str) (createMessage s (vmOf e str) now).1
        ++ (openClients (createMessage s (vmOf e str) now).1).map
            (fun d => (d.cid, Frame.msgRecord (savedOf s e str now))) := by
    rw [handleFrame_message ws e true now s h1, handleChatMessage_persist ws e str now s h2]
    dsimp only
    unfold dispatchSaved
    rw [vmOf_receiverId]
    cases hr : e.receiverId with
    | none => rfl
    | some rid =>
        rw [hr] at h3
        simp only [truthyN] at h3
        dsimp only
        rw [if_neg (by simp [h3])]
  constructor
  · rw [hbc, List.countP_append, deliveredEcho_countP_record, openClients_createMessage]
    rw [List.countP_map]
    have hcomp : ((fun p : Send => p.1 == c.cid && isMsgRecordB p.2)
        ∘ (fun d : Conn => (d.cid, Frame.msgRecord (savedOf s e str now))))
        = (fun d : Conn => d.cid == c.cid) := by
      funext d
      simp [isMsgRecordB]
    rw [hcomp]
    unfold openClients
    rw [countP_cid_open c s.clients h4 h5]
    simp
  · intro cid mm hmm
    rw [handleFrame_message ws e true now s h1, handleChatMessage_persist ws e str now s h2] at hmm
    rcases dispatchSaved_mem _ _ _ _ _ hmm with hh | hh | hh
    · exact absurd hh (by simp)
    · injection hh
    · exact absurd hh (by simp)

/-- Witness for C8: user 2's open socket receives the broadcast from user 1
exactly once. -/
theorem broadcast_message_delivery_witness :
    (truthyN envBroadcast.receiverId = false)
    ∧ ((handleFrame connA (some envBroadcast) true 7 demoState).2.countP
        (fun p => p.1 == 2 && isMsgRecordB p.2) = 1) :=
  ⟨rfl, (broadcast_message_delivery connA envBroadcast "hello" 7 demoState connB
    rfl rfl rfl (by decide) (by decide)).1⟩

/-- C3 (amended): registering an authenticated socket for an identity
overwrites the registry entry — a subsequent lookup returns the new socket
and the Map structure keeps at most one registered connection per identity —
but no prior connection is returned as evicted and none is closed: every
other socket in the client list is left exactly as it was, so an open prior
socket for the same identity stays open (and merely becomes unregistered). -/
theorem register_supersede (cid uid now : Nat) (s : ServerState) (c : Conn)
    (h : connOf s cid = some c) :
    ((authRegister cid uid now s).1.registry uid = some cid)
    ∧ (∀ q ∈ s.clients, q.cid ≠ cid → q ∈ (authRegister cid uid now s).1.clients) := by
  unfold authRegister
  rw [h]
  dsimp only
  constructor
  · rw [setUserOnlineStatus_registry]
    dsimp only
    rw [if_pos rfl]
  · intro q hq hne
    rw [setUserOnlineStatus_clients]
    dsimp only [setClient]
    have hcc : c.cid = cid := by
      have hp := List.find?_some h
      simpa using hp
    refine List.mem_map.mpr ⟨q, hq, ?_⟩
    dsimp only
    have hqc : ¬(q.cid = c.cid) := by
      rw [hcc]
      exact hne
    rw [if_neg hqc]

/-- Witness for C3 (amended): user 1 is connected on socket 1; socket 2
registers for identity 1; lookup now yields socket 2 while socket 1 is
still present and open. -/
theorem register_supersede_witness :
    (connOf (connOpen 2 soloState) 2
        = some { cid := 2, boundUser := none, isAlive := true, isOpen := true })
    ∧ ((authRegister 2 1 9 (connOpen 2 soloState)).1.registry 1 = some 2)
    ∧ (connA ∈ (authRegister 2 1 9 (connOpen 2 soloState)).1.clients) := by
  have h := register_supersede 2 1 9 (connOpen 2 soloState)
      { cid := 2, boundUser := none, isAlive := true, isOpen := true } (by decide)
  exact ⟨by decide, h.1, h.2 connA (by decide) (by decide)⟩

/-- C7 (amended): disconnect cleanup is idempotent only at the registry and
presence-flag level. Every invocation of handleDisconnection for a socket
whose bound identity is truthy deletes the registry entry (a no-op the
second time) but also re-broadcasts `userStatus offline` to every currently
open socket, because `ws.userId` is never cleared and the broadcast is
unconditional inside that branch. Since a heartbeat reap is followed by the
terminate-induced close event, whose handler calls handleDisconnection
again, a connection that never acknowledges a probe produces two offline
broadcasts, not one. -/
theorem cleanup_rebroadcast (c : Conn) (uid now : Nat) (s : ServerState)
    (h1 : c.boundUser = some uid) (h2 : uid ≠ 0) :
    ((handleDisconnection c now s).1.registry uid = none)
    ∧ ((handleDisconnection c now s).2
        = (openClients s).map (fun d => (d.cid, Frame.userStatus uid false))) := by
  unfold handleDisconnection
  rw [h1]
  dsimp only
  rw [if_pos (by simpa using h2)]
  constructor
  · rw [sessionsCleanup_registry]
    dsimp only
    rw [if_pos rfl]
  · unfold broadcastUserStatus openClients
    rw [setUserOnlineStatus_clients]

/-- Witness for C7 (amended): cleanup for user 1's socket in the two-user
state broadcasts offline to both open sockets and clears the registry. -/
theorem cleanup_rebroadcast_witness :
    (connA.boundUser = some 1)
    ∧ ((handleDisconnection connA 5 demoState).1.registry 1 = none)
    ∧ ((handleDisconnection connA 5 demoState).2
        = [(1, Frame.userStatus 1 false), (2, Frame.userStatus 1 false)]) := by
  have h := cleanup_rebroadcast connA 1 5 demoState rfl (by decide)
  exact ⟨rfl, h.1, by rw [h.2]; decide⟩

end SafeMessage
